import Mathlib

/-!
Verification of the SMTP client of smtp_utils.py (with the variant
validator of smtp_client.py and the toy server of smtp_server.py).

The embedding is shallow: the address validator, the response
classifier read_server_response, the send_email session engine and the
outcome-to-response table of main become Lean functions; the asyncio
transport becomes an explicit oracle (a connect flag plus, for the
i-th reader.read, either a decoded line or a transport-level failure),
and the observable side effects of a run are recorded as an event
trace (connect, write, close).  The Date header value, produced by
formatdate at run time, is passed in as a parameter.
-/

namespace Smtp

/-- Characters of the local-part class of EMAIL_REGEX: [a-zA-Z0-9._%+-]. -/
def isLocalChar (c : Char) : Bool :=
  c.isAlpha || c.isDigit || c == '.' || c == '_' || c == '%' || c == '+' || c == '-'

/-- Characters of the domain class of EMAIL_REGEX: [a-zA-Z0-9.-]. -/
def isDomainChar (c : Char) : Bool :=
  c.isAlpha || c.isDigit || c == '.' || c == '-'

/-- All ways to split a list into a front part and a back part. -/
def splits : List Char → List (List Char × List Char)
  | [] => [([], [])]
  | c :: t => ([], c :: t) :: (splits t).map (fun p => (c :: p.1, p.2))

/-- Matcher for the domain half of EMAIL_REGEX: [a-zA-Z0-9.-]+\.[a-zA-Z]\x7b2,\x7d. -/
def domainMatch (l : List Char) : Bool :=
  (splits l).any fun p =>
    match p.2 with
    | '.' :: tld => !p.1.isEmpty && p.1.all isDomainChar
        && decide (2 ≤ tld.length) && tld.all Char.isAlpha
    | _ => false

/-- Full-string matcher for EMAIL_REGEX (without the end-anchor newline rule). -/
def emailFullMatch (l : List Char) : Bool :=
  (splits l).any fun p =>
    match p.2 with
    | '@' :: dom => !p.1.isEmpty && p.1.all isLocalChar && domainMatch dom
    | _ => false

/-- EMAIL_REGEX.match with Python semantics of the dollar anchor, which also
matches just before a single newline at the very end of the string. -/
def emailRegexMatch (s : String) : Bool :=
  emailFullMatch s.data ||
    (match s.data.getLast? with
     | some c => c == '\n' && emailFullMatch s.data.dropLast
     | none => false)

/-- validate_email_address of smtp_utils.py on a string argument:
bool(EMAIL_REGEX.match(email)). -/
def validate_email_address (email : String) : Bool :=
  emailRegexMatch email

/-- A Python runtime value as far as the validators care: a str, or anything
else (None, int, bytes, ...). -/
inductive PyVal where
  | pstr (s : String)
  | other
  deriving DecidableEq

/-- validate_email_address of smtp_utils.py on an arbitrary Python value:
re.Pattern.match raises TypeError when its argument is not a string, and the
function has no guard, so non-string input raises instead of returning. -/
def validate_email_address_dyn : PyVal → Except Unit Bool
  | .pstr s => .ok (validate_email_address s)
  | .other => .error ()

/-- validate_email_address of smtp_client.py: the isinstance(email, str) guard
makes non-string input return False without raising. -/
def validate_email_address_client : PyVal → Bool
  | .pstr s => validate_email_address s
  | .other => false

/-- Declarative form of the pattern the specification states: a nonempty
local part, an at sign, a nonempty run of domain characters, a dot, and a
top-level label of at least two letters. -/
def SpecEmailShape (l : List Char) : Prop :=
  ∃ a b c : List Char,
    l = a ++ '@' :: (b ++ '.' :: c) ∧ a ≠ [] ∧ (∀ x ∈ a, isLocalChar x = true) ∧
      b ≠ [] ∧ (∀ x ∈ b, isDomainChar x = true) ∧
      2 ≤ c.length ∧ (∀ x ∈ c, x.isAlpha = true)

/-- What EMAIL_REGEX.match accepts, declaratively: the string itself has the
shape, or the string minus one trailing newline has it. -/
def RegexAccepts (s : String) : Prop :=
  SpecEmailShape s.data ∨ ∃ l, s.data = l ++ ['\n'] ∧ SpecEmailShape l

/-- Whitespace stripped by Python str.strip() on ASCII text. -/
def isPyWs (c : Char) : Bool :=
  c == ' ' || c == '\t' || c == '\n' || c == '\r' || c == '\x0b' || c == '\x0c'

/-- Drop leading Python whitespace from a character list. -/
def dropWs : List Char → List Char
  | [] => []
  | c :: t => if isPyWs c then dropWs t else c :: t

/-- Python str.strip(). -/
def pyStrip (s : String) : String :=
  ⟨dropWs ((dropWs s.data.reverse).reverse)⟩

/-- Does the first list start with the second one. -/
def startsL : List Char → List Char → Bool
  | _, [] => true
  | [], _ :: _ => false
  | c :: t, d :: u => c == d && startsL t u

/-- Python s.startswith(p). -/
def pyStartsWith (s p : String) : Bool := startsL s.data p.data

/-- Substring occurrence on character lists. -/
def containsL : List Char → List Char → Bool
  | [], pat => startsL [] pat
  | c :: t, pat => startsL (c :: t) pat || containsL t pat

/-- Python (p in s): substring test. -/
def pyContains (s p : String) : Bool := containsL s.data p.data

/-- The status test of read_server_response: decoded_response[:1] in
the set of the characters 2 and 3. -/
def goodCode (d : String) : Bool :=
  match d.data with
  | [] => false
  | c :: _ => c == '2' || c == '3'

/-- Specification-side phrasing of the same test: the stripped line is
nonempty and its first character is 2 or 3. -/
def FirstIn23 (d : String) : Prop :=
  ∃ c tail, d.data = c :: tail ∧ (c = '2' ∨ c = '3')

/-- read_server_response of smtp_utils.py as a function of the decoded bytes:
strip, then raise SMTPClientError (carrying the text) unless the first
character is 2 or 3. -/
def read_server_response (s : String) : Except String String :=
  let d := pyStrip s
  if goodCode d then .ok d else .error ("Error del servidor: " ++ d)

/-- UTF-8 bytes of one character, as produced by str.encode(). -/
def utf8Bytes (c : Char) : List Nat :=
  let n := c.toNat
  if n < 128 then [n]
  else if n < 2048 then [192 + n / 64, 128 + n % 64]
  else if n < 65536 then [224 + n / 4096, 128 + n / 64 % 64, 128 + n % 64]
  else [240 + n / 262144, 128 + n / 4096 % 64, 128 + n / 64 % 64, 128 + n % 64]

/-- str.encode(): UTF-8 bytes of a string. -/
def strBytes (s : String) : List Nat :=
  s.data.foldr (fun c acc => utf8Bytes c ++ acc) []

/-- The base64 alphabet character of an index. -/
def b64Char (n : Nat) : Char :=
  "ABCDEFGHIJKLMNOPQRSTUVWXYZabcdefghijklmnopqrstuvwxyz0123456789+/".data.getD n 'A'

/-- base64.b64encode on a byte list, decoded to a string. -/
def b64encode : List Nat → String
  | [] => ""
  | [a] => ⟨[b64Char (a / 4), b64Char (a % 4 * 16), '=', '=']⟩
  | [a, b] => ⟨[b64Char (a / 4), b64Char (a % 4 * 16 + b / 16), b64Char (b % 16 * 4), '=']⟩
  | a :: b :: c :: rest =>
      ⟨[b64Char (a / 4), b64Char (a % 4 * 16 + b / 16),
        b64Char (b % 16 * 4 + c / 64), b64Char (c % 64)]⟩ ++ b64encode rest

/-- The credential line of AUTH PLAIN: base64 of the NUL-separated triple
(empty, sender address, password), UTF-8 encoded. -/
def authB64 (sender pw : String) : String :=
  b64encode (strBytes ("\x00" ++ sender ++ "\x00" ++ pw))

/-- The arguments of send_email that form the envelope.  custom_headers is an
association list since a Python dict preserves insertion order. -/
structure Envelope where
  sender_address : String
  sender_password : String
  recipient_addresses : List String
  email_subject : String
  email_body : String
  custom_headers : List (String × String)

/-- Python sep.join(parts). -/
def joinSep (sep : String) : List String → String
  | [] => ""
  | [x] => x
  | x :: y :: t => x ++ sep ++ joinSep sep (y :: t)

/-- The email_content string built by send_email; date stands for
formatdate(localtime=True). -/
def email_content (e : Envelope) (date : String) : String :=
  joinSep "\r\n"
    (["From: " ++ e.sender_address,
      "To: " ++ joinSep ", " e.recipient_addresses,
      "Subject: " ++ e.email_subject,
      "Date: " ++ date] ++ e.custom_headers.map (fun h => h.1 ++ ": " ++ h.2))
  ++ "\r\n\r\n" ++ e.email_body

/-- A Python exception as send_email distinguishes them: SMTPClientError with
its message, or any other exception (connection refused, timeout, decode
error, ...). -/
inductive PyExc where
  | smtpError (msg : String)
  | generic
  deriving DecidableEq

/-- One reader.read(1024): a decoded line, or a transport-level failure that
raises a non-SMTPClientError exception. -/
inductive ReadResult where
  | line (s : String)
  | rfail
  deriving DecidableEq

/-- The transport oracle: whether open_connection succeeds, and the outcome
of the i-th read of the session. -/
structure Transport where
  connectOk : Bool
  reads : Nat → ReadResult

/-- Observable transport events of one send_email run.  The close event
exists in the vocabulary so that closing behaviour can be stated; the source
of send_email contains no writer.close() call on any path, so no run ever
emits it. -/
inductive Event where
  | connect
  | write (s : String)
  | close
  deriving DecidableEq

/-- Session-local state: the events so far and the index of the next read. -/
structure St where
  events : List Event
  idx : Nat
  deriving DecidableEq

/-- The value send_email returns, (email_sent, error_type), together with the
event trace of the run. -/
structure RunResult where
  email_sent : Bool
  error_type : Nat
  events : List Event
  deriving DecidableEq

/-- writer.write of one command. -/
def wr (s : St) (cmd : String) : St := ⟨s.events ++ [.write cmd], s.idx⟩

/-- One await read_server_response(reader): consumes the next transport read
and classifies it. -/
def rd (t : Transport) (s : St) : Except PyExc String × St :=
  (match t.reads s.idx with
   | .line raw =>
     match read_server_response raw with
     | .ok d => .ok d
     | .error m => .error (.smtpError m)
   | .rfail => .error .generic,
   ⟨s.events, s.idx + 1⟩)

/-- A read wrapped in a try/except SMTPClientError that sets error_type to
tag before re-raising (the handlers at MAIL FROM and RCPT TO; tag 0 models
the steps with no handler). -/
def rdTag (t : Transport) (tag : Nat) (s : St) : Except (Nat × PyExc) String × St :=
  match rd t s with
  | (.ok d, s') => (.ok d, s')
  | (.error (.smtpError m), s') => (.error (tag, .smtpError m), s')
  | (.error .generic, s') => (.error (0, .generic), s')

/-- A tagged read whose response value is not used further. -/
def rdStep (t : Transport) (tag : Nat) (s : St) : Except (Nat × PyExc) Unit × St :=
  match rdTag t tag s with
  | (.ok _, s') => (.ok (), s')
  | (.error ex, s') => (.error ex, s')

/-- Sequencing of session steps: a raised exception propagates, keeping the
events accumulated so far. -/
def andThen (step : Except (Nat × PyExc) Unit × St)
    (k : St → Except (Nat × PyExc) Unit × St) : Except (Nat × PyExc) Unit × St :=
  match step with
  | (.ok _, s) => k s
  | (.error ex, s) => (.error ex, s)

/-- The AUTH PLAIN block of send_email with its try/except SMTPClientError
handler: on a 334 response the credential line is sent and its response read;
an SMTPClientError whose text contains 502 is swallowed and the session
continues unauthenticated; any other exception propagates. -/
def authStep (e : Envelope) (t : Transport) (s : St) : Except (Nat × PyExc) Unit × St :=
  let s1 := wr s "AUTH PLAIN\r\n"
  match rd t s1 with
  | (.ok resp, s2) =>
    if pyStartsWith resp "334" then
      let s3 := wr s2 (authB64 e.sender_address e.sender_password ++ "\r\n")
      match rd t s3 with
      | (.ok _, s4) => (.ok (), s4)
      | (.error (.smtpError m), s4) =>
          if pyContains m "502" then (.ok (), s4) else (.error (0, .smtpError m), s4)
      | (.error .generic, s4) => (.error (0, .generic), s4)
    else (.ok (), s2)
  | (.error (.smtpError m), s2) =>
      if pyContains m "502" then (.ok (), s2) else (.error (0, .smtpError m), s2)
  | (.error .generic, s2) => (.error (0, .generic), s2)

/-- The RCPT TO loop of send_email: one command and one tagged read per
recipient, in envelope order, aborting on the first failure. -/
def rcptLoop (t : Transport) : List String → St → Except (Nat × PyExc) Unit × St
  | [], s => (.ok (), s)
  | r :: rest, s =>
    match rdStep t 2 (wr s ("RCPT TO:" ++ r ++ "\r\n")) with
    | (.ok _, s2) => rcptLoop t rest s2
    | (.error ex, s2) => (.error ex, s2)

/-- Tail of the session from the QUIT command on. -/
def stageQuit (t : Transport) (s : St) : Except (Nat × PyExc) Unit × St :=
  andThen (rdStep t 0 (wr s "QUIT\r\n")) fun s1 => (.ok (), s1)

/-- Tail of the session from the content write (terminated by the CRLF dot
CRLF end-of-data marker) on. -/
def stageContent (e : Envelope) (t : Transport) (date : String) (s : St) :
    Except (Nat × PyExc) Unit × St :=
  andThen (rdStep t 0 (wr s (email_content e date ++ "\r\n.\r\n"))) (stageQuit t)

/-- Tail of the session from the DATA command on. -/
def stageData (e : Envelope) (t : Transport) (date : String) (s : St) :
    Except (Nat × PyExc) Unit × St :=
  andThen (rdStep t 0 (wr s "DATA\r\n")) (stageContent e t date)

/-- Tail of the session from the RCPT TO loop on. -/
def stageRcpt (e : Envelope) (t : Transport) (date : String) (s : St) :
    Except (Nat × PyExc) Unit × St :=
  andThen (rcptLoop t e.recipient_addresses s) (stageData e t date)

/-- Tail of the session from the MAIL FROM command on. -/
def stageMail (e : Envelope) (t : Transport) (date : String) (s : St) :
    Except (Nat × PyExc) Unit × St :=
  andThen (rdStep t 1 (wr s ("MAIL FROM:" ++ e.sender_address ++ "\r\n")))
    (stageRcpt e t date)

/-- Tail of the session from the AUTH PLAIN block on. -/
def stageAuth (e : Envelope) (t : Transport) (date : String) (s : St) :
    Except (Nat × PyExc) Unit × St :=
  andThen (authStep e t s) (stageMail e t date)

/-- Tail of the session from the EHLO command on. -/
def stageEhlo (e : Envelope) (t : Transport) (date : String) (s : St) :
    Except (Nat × PyExc) Unit × St :=
  andThen (rdStep t 0 (wr s "EHLO localhost\r\n")) (stageAuth e t date)

/-- The body of the outer try of send_email after a successful
open_connection: greeting, EHLO, AUTH, MAIL FROM, the RCPT TO loop, DATA,
the content terminated by CRLF dot CRLF, and QUIT. -/
def sessionCore (e : Envelope) (t : Transport) (date : String) :
    Except (Nat × PyExc) Unit × St :=
  andThen (rdStep t 0 ⟨[.connect], 0⟩) (stageEhlo e t date)

/-- send_email of smtp_utils.py: address validation, the session, and the
outer exception handlers that aggregate the failure classification.  The
writes themselves are modelled as infallible; transport failures surface at
open_connection (connectOk) and at the reads (ReadResult.rfail). -/
def send_email (e : Envelope) (t : Transport) (date : String) : RunResult :=
  if !validate_email_address e.sender_address then ⟨false, 1, []⟩
  else if e.recipient_addresses.any (fun r => !validate_email_address r) then
    ⟨false, 2, []⟩
  else if !t.connectOk then ⟨false, 3, []⟩
  else
    match sessionCore e t date with
    | (.ok _, s) => ⟨true, 0, s.events⟩
    | (.error (tag, .smtpError m), s) =>
        ⟨false,
         if tag ≠ 0 then tag
         else if pyContains m "501" then 1
         else if pyContains m "550" then 2
         else 0,
         s.events⟩
    | (.error (_, .generic), s) => ⟨false, 3, s.events⟩

/-- Number of connect events of a trace. -/
def connects (l : List Event) : Nat :=
  (l.filter fun ev => match ev with | .connect => true | _ => false).length

/-- Number of close events of a trace. -/
def closes (l : List Event) : Nat :=
  (l.filter fun ev => match ev with | .close => true | _ => false).length

/-- The written command lines of a trace, in order. -/
def writesOf : List Event → List String
  | [] => []
  | .write s :: t => s :: writesOf t
  | _ :: t => writesOf t

/-- A transport read that passes read_server_response: a decoded line whose
stripped form has first character 2 or 3. -/
def GoodLine (rr : ReadResult) : Prop :=
  ∃ raw, rr = .line raw ∧ goodCode (pyStrip raw) = true

/-- A transport whose connect succeeds and whose reads come from a fixed
list; reads past the list fail at transport level. -/
def listTransport (l : List ReadResult) : Transport :=
  ⟨true, fun i => l.getD i .rfail⟩

/-- json.dumps of the response dict of the toy server. -/
def jsonResp (code : Nat) (msg : String) : String :=
  "\x7b\"status_code\": " ++ toString code ++ ", \"message\": \"" ++ msg ++ "\"\x7d"

/-- The reply handle_client of smtp_server.py sends for one received chunk,
before the appended CRLF. -/
def handle_client_response (data : String) : String :=
  if pyStartsWith data "HELO" || pyStartsWith data "EHLO" then jsonResp 250 "Hello"
  else if pyStartsWith data "MAIL FROM" then jsonResp 250 "Sender OK"
  else if pyStartsWith data "RCPT TO" then jsonResp 250 "Recipient OK"
  else if pyStartsWith data "DATA" then jsonResp 250 "Ready for data"
  else if pyStartsWith data "QUIT" then jsonResp 250 "Goodbye"
  else jsonResp 502 "Command not implemented"

/-- The error_messages dict of main in smtp_utils.py, as a partial map. -/
def error_messages (k : Nat) : Option String :=
  if k = 0 then some "Error desconocido del servidor"
  else if k = 1 then some "Invalid sender address"
  else if k = 2 then some "Invalid recipient address"
  else if k = 3 then some "Error de protocolo SMTP"
  else none

/-- The status_codes dict of main in smtp_utils.py, as a partial map. -/
def status_codes (k : Nat) : Option Nat :=
  if k = 0 then some 550
  else if k = 1 then some 501
  else if k = 2 then some 550
  else if k = 3 then some 503
  else none

/-- The JSON pair (status_code, message) main prints for a send_email
outcome, with the dict.get fallbacks 550 and the literal Unknown error. -/
def main_output (result : Bool) (error_type : Nat) : Nat × String :=
  if result then (250, "Message accepted for delivery")
  else ((status_codes error_type).getD 550, (error_messages error_type).getD "Unknown error")

/-- Fixture: a valid envelope with no password and one recipient. -/
def envA : Envelope := ⟨"a@b.com", "", ["c@d.com"], "S", "B", []⟩

/-- Fixture: a valid envelope with a password and one recipient. -/
def envP : Envelope := ⟨"a@b.com", "pw", ["c@d.com"], "Hi", "Hello", [("X-Test", "1")]⟩

/-- Fixture: a valid envelope with three recipients. -/
def envR : Envelope := ⟨"a@b.com", "", ["c@d.com", "e@f.gh", "x@y.zz"], "S", "B", []⟩

/-- Fixture: an envelope whose sender address is invalid. -/
def envBadSender : Envelope := ⟨"bad", "", ["c@d.com"], "S", "B", []⟩

/-- Fixture: a valid sender and an invalid second recipient. -/
def envBadRcpt : Envelope := ⟨"a@b.com", "", ["c@d.com", "bad@", "e@f.gh"], "S", "B", []⟩

/-- Fixture: a transport that rejects the first RCPT TO with 550. -/
def trRcpt550 : Transport := listTransport
  [.line "220 hi\r\n", .line "250 ok\r\n", .line "250 ok\r\n",
   .line "250 ok\r\n", .line "550 no\r\n"]

/-- Fixture: a transport that rejects the second RCPT TO with 550. -/
def trRcptFail2 : Transport := listTransport
  [.line "220 hi\r\n", .line "250 ok\r\n", .line "250 ok\r\n",
   .line "250 ok\r\n", .line "250 ok\r\n", .line "550 no 2\r\n"]

/-- Fixture: a transport that runs a full successful session with a 334
challenge to AUTH PLAIN. -/
def trAuth334 : Transport := listTransport
  [.line "220 hi\r\n", .line "250 ok\r\n", .line "334 go\r\n", .line "235 ok\r\n",
   .line "250 ok\r\n", .line "250 ok\r\n", .line "354 go\r\n", .line "250 ok\r\n",
   .line "221 bye\r\n"]

/-- Fixture: a stub that answers 502 to the third exchange (AUTH PLAIN) and a
passing 250 line to every other command. -/
def trAuth502 : Transport :=
  ⟨true, fun i => if i = 2 then .line "502 Command not implemented\r\n"
    else .line "250 ok\r\n"⟩

/-- Fixture: a transport that rejects EHLO with 550. -/
def trEhlo550 : Transport := listTransport [.line "220 hi\r\n", .line "550 nope\r\n"]

/-- Fixture: a transport that rejects MAIL FROM with a 501 line. -/
def trMail501 : Transport := listTransport
  [.line "220 hi\r\n", .line "250 ok\r\n", .line "250 ok\r\n", .line "501 bad\r\n"]

/-- Fixture: a transport that fails at transport level on the second read. -/
def trGenFail : Transport := listTransport [.line "220 hi\r\n", .rfail]

/-- Fixture: a transport whose connect fails (connection refused). -/
def trNoConn : Transport := ⟨false, fun _ => .rfail⟩

/-- Fixture: an unused transport. -/
def trAny : Transport := listTransport []

/-- Fixture: the greeting of the toy server followed by its JSON replies, as
seen by the client when both bundled programs talk to each other. -/
def trToy : Transport :=
  ⟨true, fun i => if i = 0 then .line "220 Welcome to Simple SMTP Server\r\n"
    else .line (handle_client_response "EHLO localhost\r\n" ++ "\r\n")⟩

/-- Membership in splits is exactly being a decomposition of the list. -/
theorem mem_splits (l : List Char) (p : List Char × List Char) :
    p ∈ splits l ↔ p.1 ++ p.2 = l := by
  induction l generalizing p with
  | nil =>
    obtain ⟨a, b⟩ := p
    simp [splits]
  | cons c t ih =>
    obtain ⟨a, b⟩ := p
    simp only [splits, List.mem_cons, List.mem_map, Prod.mk.injEq]
    constructor
    · rintro (⟨rfl, rfl⟩ | ⟨q, hq, rfl, rfl⟩)
      · rfl
      · have := (ih q).mp hq
        simpa using this
    · intro h
      cases a with
      | nil =>
        left
        simpa using h
      | cons x xs =>
        right
        have hx : x = c ∧ xs ++ b = t := by simpa using h
        exact ⟨(xs, b), (ih (xs, b)).mpr hx.2, by simp [hx.1], rfl⟩

/-- The domain matcher accepts exactly the declarative domain shape. -/
theorem domainMatch_iff (l : List Char) :
    domainMatch l = true ↔
      ∃ b c, l = b ++ '.' :: c ∧ b ≠ [] ∧ (∀ x ∈ b, isDomainChar x = true) ∧
        2 ≤ c.length ∧ (∀ x ∈ c, x.isAlpha = true) := by
  unfold domainMatch
  rw [List.any_eq_true]
  constructor
  · rintro ⟨⟨b, rest⟩, hmem, hp⟩
    rw [mem_splits] at hmem
    dsimp at hp
    split at hp
    · rename_i tld
      simp only [Bool.and_eq_true, Bool.not_eq_true', List.all_eq_true,
        decide_eq_true_eq] at hp
      obtain ⟨⟨⟨hb, hball⟩, hlen⟩, htld⟩ := hp
      have hb' : b ≠ [] := by
        intro hnil
        subst hnil
        simp at hb
      exact ⟨b, tld, by simpa using hmem.symm, hb', hball, hlen, htld⟩
    · exact absurd hp (by simp)
  · rintro ⟨b, c, rfl, hb, hball, hlen, hcall⟩
    refine ⟨(b, '.' :: c), (mem_splits _ _).mpr rfl, ?_⟩
    simp only [Bool.and_eq_true, Bool.not_eq_true', List.all_eq_true,
      decide_eq_true_eq]
    refine ⟨⟨⟨?_, hball⟩, hlen⟩, hcall⟩
    cases b with
    | nil => exact absurd rfl hb
    | cons x xs => rfl

/-- The full matcher accepts exactly the declarative email shape. -/
theorem emailFullMatch_iff (l : List Char) :
    emailFullMatch l = true ↔ SpecEmailShape l := by
  unfold emailFullMatch SpecEmailShape
  rw [List.any_eq_true]
  constructor
  · rintro ⟨⟨a, rest⟩, hmem, hp⟩
    rw [mem_splits] at hmem
    dsimp at hp
    split at hp
    · rename_i dom
      simp only [Bool.and_eq_true, Bool.not_eq_true', List.all_eq_true] at hp
      obtain ⟨⟨ha, hall⟩, hdom⟩ := hp
      have ha' : a ≠ [] := by
        intro hnil
        subst hnil
        simp at ha
      obtain ⟨b, c, hdec, hb, hball, hlen, hcall⟩ := (domainMatch_iff dom).mp hdom
      refine ⟨a, b, c, ?_, ha', hall, hb, hball, hlen, hcall⟩
      rw [← hdec]
      simpa using hmem.symm
    · exact absurd hp (by simp)
  · rintro ⟨a, b, c, rfl, ha, hall, hb, hball, hlen, hcall⟩
    refine ⟨(a, '@' :: (b ++ '.' :: c)), (mem_splits _ _).mpr rfl, ?_⟩
    have hdom : domainMatch (b ++ '.' :: c) = true :=
      (domainMatch_iff _).mpr ⟨b, c, rfl, hb, hball, hlen, hcall⟩
    simp only [Bool.and_eq_true, Bool.not_eq_true', List.all_eq_true]
    refine ⟨⟨?_, hall⟩, hdom⟩
    cases a with
    | nil => exact absurd rfl ha
    | cons x xs => rfl

/-- A list whose optional last element is known decomposes at the back. -/
theorem getLast?_decomp : ∀ (l : List Char) (c : Char),
    l.getLast? = some c → l = l.dropLast ++ [c] := by
  intro l
  induction l with
  | nil => intro c h; simp at h
  | cons x xs ih =>
    intro c h
    cases xs with
    | nil => simp_all
    | cons y ys =>
      have h' : (y :: ys).getLast? = some c := by
        simpa [List.getLast?_cons_cons] using h
      have := ih c h'
      calc x :: y :: ys = x :: ((y :: ys).dropLast ++ [c]) := by rw [← this]
        _ = (x :: y :: ys).dropLast ++ [c] := rfl

/-- The validator accepts exactly the strings EMAIL_REGEX.match accepts:
the declarative shape, possibly followed by one final newline. -/
theorem validate_email_address_iff (s : String) :
    validate_email_address s = true ↔ RegexAccepts s := by
  unfold validate_email_address emailRegexMatch RegexAccepts
  rw [Bool.or_eq_true, emailFullMatch_iff]
  constructor
  · rintro (h | h)
    · exact Or.inl h
    · right
      cases hlast : s.data.getLast? with
      | none => rw [hlast] at h; simp at h
      | some c =>
        rw [hlast] at h
        simp only [Bool.and_eq_true, beq_iff_eq] at h
        obtain ⟨rfl, hm⟩ := h
        exact ⟨s.data.dropLast, getLast?_decomp s.data '\n' hlast,
          (emailFullMatch_iff _).mp hm⟩
  · rintro (h | ⟨l, hl, h⟩)
    · exact Or.inl h
    · right
      rw [hl]
      have h1 : (l ++ ['\n']).getLast? = some '\n' := by simp
      rw [h1]
      simp only [beq_self_eq_true, Bool.true_and]
      have h2 : (l ++ ['\n']).dropLast = l := by simp
      rw [h2]
      exact (emailFullMatch_iff _).mpr h

/-- The status test of read_server_response is the declarative first
character condition. -/
theorem goodCode_iff (d : String) : goodCode d = true ↔ FirstIn23 d := by
  unfold goodCode FirstIn23
  cases h : d.data with
  | nil => simp
  | cons c rest =>
    simp only [Bool.or_eq_true, beq_iff_eq]
    constructor
    · intro hc
      exact ⟨c, rest, rfl, hc⟩
    · rintro ⟨c', t', heq, hor⟩
      obtain ⟨rfl, rfl⟩ : c = c' ∧ rest = t' := by simpa using heq
      exact hor

/-- A substring of the back part is a substring of the whole list. -/
theorem containsL_append_right (a b p : List Char) (h : containsL b p = true) :
    containsL (a ++ b) p = true := by
  induction a with
  | nil => simpa
  | cons x xs ih =>
    rw [List.cons_append]
    unfold containsL
    rw [Bool.or_eq_true]
    exact Or.inr ih

/-- A string starting with 334 passes the status test. -/
theorem starts334_good (d : String) (h : pyStartsWith d "334" = true) :
    goodCode d = true := by
  unfold pyStartsWith at h
  unfold goodCode
  cases hd : d.data with
  | nil => rw [hd] at h; simp [startsL] at h
  | cons c rest =>
    rw [hd] at h
    have hc : c = '3' := by
      have h3 : ("334" : String).data = ['3', '3', '4'] := rfl
      rw [h3] at h
      simp only [startsL, Bool.and_eq_true, beq_iff_eq] at h
      exact h.1
    subst hc
    simp

/-- A tagged read that sees a passing line succeeds, advancing the cursor. -/
theorem rdStep_good (t : Transport) (tag : Nat) (s : St) (raw : String)
    (h : t.reads s.idx = .line raw) (hg : goodCode (pyStrip raw) = true) :
    rdStep t tag s = (.ok (), ⟨s.events, s.idx + 1⟩) := by
  simp [rdStep, rdTag, rd, h, read_server_response, hg]

/-- A tagged read that sees a failing line raises SMTPClientError with the
stripped text, tagged with the handler's error type. -/
theorem rdStep_bad (t : Transport) (tag : Nat) (s : St) (raw : String)
    (h : t.reads s.idx = .line raw) (hg : goodCode (pyStrip raw) = false) :
    rdStep t tag s =
      (.error (tag, .smtpError ("Error del servidor: " ++ pyStrip raw)),
       ⟨s.events, s.idx + 1⟩) := by
  simp [rdStep, rdTag, rd, h, read_server_response, hg]

/-- A tagged read that fails at transport level raises a generic exception. -/
theorem rdStep_rfail (t : Transport) (tag : Nat) (s : St)
    (h : t.reads s.idx = .rfail) :
    rdStep t tag s = (.error (0, .generic), ⟨s.events, s.idx + 1⟩) := by
  simp [rdStep, rdTag, rd, h]

/-- A tagged read never alters the event trace and always advances the
cursor by one. -/
theorem rdStep_snd (t : Transport) (tag : Nat) (s : St) :
    (rdStep t tag s).2 = ⟨s.events, s.idx + 1⟩ := by
  cases h : t.reads s.idx with
  | line raw =>
    cases hg : goodCode (pyStrip raw) with
    | false => rw [rdStep_bad t tag s raw h hg]
    | true => rw [rdStep_good t tag s raw h hg]
  | rfail => rw [rdStep_rfail t tag s h]

/-- Sequencing after a successful step runs the continuation. -/
theorem andThen_ok (s : St) (k : St → Except (Nat × PyExc) Unit × St) :
    andThen (.ok (), s) k = k s := rfl

/-- Sequencing after a raised step propagates the exception. -/
theorem andThen_error (ex : Nat × PyExc) (s : St)
    (k : St → Except (Nat × PyExc) Unit × St) :
    andThen (.error ex, s) k = (.error ex, s) := rfl

/-- Sequencing only ever extends the event trace. -/
theorem andThen_events (X : Except (Nat × PyExc) Unit × St)
    (k : St → Except (Nat × PyExc) Unit × St) (ev0 d0 : List Event)
    (hX : X.2.events = ev0 ++ d0)
    (hk : ∀ s, ∃ d, (k s).2.events = s.events ++ d) :
    ∃ d, (andThen X k).2.events = ev0 ++ d := by
  obtain ⟨res, s⟩ := X
  cases res with
  | ok u =>
    obtain ⟨d, hd⟩ := hk s
    exact ⟨d0 ++ d, by
      rw [andThen_ok, hd]
      simp only at hX
      rw [hX, List.append_assoc]⟩
  | error ex => exact ⟨d0, by rw [andThen_error]; exact hX⟩

/-- AUTH PLAIN is written and, on a 334 challenge, the base64 credential line
right after it; whatever happens next only extends the trace. -/
theorem authStep_events (e : Envelope) (t : Transport) (s : St) :
    ∃ d, (authStep e t s).2.events = s.events ++ .write "AUTH PLAIN\r\n" :: d := by
  unfold authStep
  cases h : t.reads s.idx with
  | rfail => exact ⟨[], by simp [rd, wr, h]⟩
  | line raw =>
    cases hrsp : read_server_response raw with
    | ok resp =>
      by_cases h334 : pyStartsWith resp "334" = true
      · cases h2 : t.reads (s.idx + 1) with
        | rfail =>
          exact ⟨[.write (authB64 e.sender_address e.sender_password ++ "\r\n")],
            by simp [rd, wr, h, hrsp, h334, h2]⟩
        | line raw2 =>
          cases hrsp2 : read_server_response raw2 with
          | ok resp2 =>
            exact ⟨[.write (authB64 e.sender_address e.sender_password ++ "\r\n")],
              by simp [rd, wr, h, hrsp, h334, h2, hrsp2]⟩
          | error m2 =>
            by_cases h5 : pyContains m2 "502" = true
            · exact ⟨[.write (authB64 e.sender_address e.sender_password ++ "\r\n")],
                by simp [rd, wr, h, hrsp, h334, h2, hrsp2, h5]⟩
            · exact ⟨[.write (authB64 e.sender_address e.sender_password ++ "\r\n")],
                by simp [rd, wr, h, hrsp, h334, h2, hrsp2, h5]⟩
      · exact ⟨[], by simp [rd, wr, h, hrsp, h334]⟩
    | error m =>
      by_cases h5 : pyContains m "502" = true
      · exact ⟨[], by simp [rd, wr, h, hrsp, h5]⟩
      · exact ⟨[], by simp [rd, wr, h, hrsp, h5]⟩

/-- The AUTH block on a passing non-334 response: continue, one write. -/
theorem authStep_skip (e : Envelope) (t : Transport) (s : St) (raw : String)
    (h : t.reads s.idx = .line raw) (hg : goodCode (pyStrip raw) = true)
    (h334 : pyStartsWith (pyStrip raw) "334" = false) :
    authStep e t s = (.ok (), ⟨s.events ++ [.write "AUTH PLAIN\r\n"], s.idx + 1⟩) := by
  simp [authStep, wr, rd, h, read_server_response, hg, h334]

/-- The AUTH block on a failing response containing 502: the handler
swallows the error and the session continues unauthenticated. -/
theorem authStep_noauth (e : Envelope) (t : Transport) (s : St) (raw : String)
    (h : t.reads s.idx = .line raw) (hg : goodCode (pyStrip raw) = false)
    (h502 : pyContains ("Error del servidor: " ++ pyStrip raw) "502" = true) :
    authStep e t s = (.ok (), ⟨s.events ++ [.write "AUTH PLAIN\r\n"], s.idx + 1⟩) := by
  simp [authStep, wr, rd, h, read_server_response, hg, h502]

/-- The AUTH block on a failing response not containing 502: the exception
propagates untagged. -/
theorem authStep_err (e : Envelope) (t : Transport) (s : St) (raw : String)
    (h : t.reads s.idx = .line raw) (hg : goodCode (pyStrip raw) = false)
    (h502 : pyContains ("Error del servidor: " ++ pyStrip raw) "502" = false) :
    authStep e t s =
      (.error (0, .smtpError ("Error del servidor: " ++ pyStrip raw)),
       ⟨s.events ++ [.write "AUTH PLAIN\r\n"], s.idx + 1⟩) := by
  simp [authStep, wr, rd, h, read_server_response, hg, h502]

/-- The AUTH block on a 334 challenge followed by a passing response to the
credential line: two writes, authentication done. -/
theorem authStep_334 (e : Envelope) (t : Transport) (s : St) (raw raw2 : String)
    (h : t.reads s.idx = .line raw)
    (h334 : pyStartsWith (pyStrip raw) "334" = true)
    (h2 : t.reads (s.idx + 1) = .line raw2)
    (hg2 : goodCode (pyStrip raw2) = true) :
    authStep e t s = (.ok (),
      ⟨s.events ++ [.write "AUTH PLAIN\r\n",
        .write (authB64 e.sender_address e.sender_password ++ "\r\n")],
       s.idx + 2⟩) := by
  have hg := starts334_good _ h334
  simp [authStep, wr, rd, h, h2, read_server_response, hg, hg2, h334]

/-- A write followed by a passing tagged read. -/
theorem rdStepW_good (t : Transport) (tag : Nat) (s : St) (cmd raw : String)
    (h : t.reads s.idx = .line raw) (hg : goodCode (pyStrip raw) = true) :
    rdStep t tag (wr s cmd) = (.ok (), ⟨s.events ++ [.write cmd], s.idx + 1⟩) :=
  rdStep_good t tag (wr s cmd) raw h hg

/-- A write followed by a failing tagged read. -/
theorem rdStepW_bad (t : Transport) (tag : Nat) (s : St) (cmd raw : String)
    (h : t.reads s.idx = .line raw) (hg : goodCode (pyStrip raw) = false) :
    rdStep t tag (wr s cmd) =
      (.error (tag, .smtpError ("Error del servidor: " ++ pyStrip raw)),
       ⟨s.events ++ [.write cmd], s.idx + 1⟩) :=
  rdStep_bad t tag (wr s cmd) raw h hg

/-- A write followed by a transport-level read failure. -/
theorem rdStepW_rfail (t : Transport) (tag : Nat) (s : St) (cmd : String)
    (h : t.reads s.idx = .rfail) :
    rdStep t tag (wr s cmd) =
      (.error (0, .generic), ⟨s.events ++ [.write cmd], s.idx + 1⟩) :=
  rdStep_rfail t tag (wr s cmd) h

/-- The RCPT TO loop on all-passing responses: one write per recipient in
envelope order, then success. -/
theorem rcptLoop_ok (t : Transport) (rs : List String) : ∀ (s : St),
    (∀ i, i < rs.length → GoodLine (t.reads (s.idx + i))) →
    rcptLoop t rs s = (.ok (),
      ⟨s.events ++ rs.map (fun r => .write ("RCPT TO:" ++ r ++ "\r\n")),
       s.idx + rs.length⟩) := by
  induction rs with
  | nil => intro s h; simp [rcptLoop]
  | cons r rest ih =>
    intro s h
    obtain ⟨raw, hline, hgood⟩ := h 0 (by simp)
    rw [Nat.add_zero] at hline
    simp only [rcptLoop]
    rw [rdStepW_good t 2 s ("RCPT TO:" ++ r ++ "\r\n") raw hline hgood]
    dsimp only
    have ih' := ih ⟨s.events ++ [.write ("RCPT TO:" ++ r ++ "\r\n")], s.idx + 1⟩ ?_
    · rw [ih']
      simp only [Prod.mk.injEq, St.mk.injEq, List.map_cons, List.length_cons]
      refine ⟨trivial, by simp, by omega⟩
    · intro i hi
      have h2 := h (i + 1) (by simpa using Nat.succ_lt_succ hi)
      have heq : s.idx + (i + 1) = s.idx + 1 + i := by omega
      rw [heq] at h2
      exact h2

/-- The RCPT TO loop when the response for one recipient fails: writes for
the passing front part and the failing recipient only, then the tagged
recipient error; later recipients are not attempted. -/
theorem rcptLoop_fail (t : Transport) (pre : List String) (r : String)
    (post : List String) : ∀ (s : St),
    (∀ i, i < pre.length → GoodLine (t.reads (s.idx + i))) →
    ∀ (b : String), t.reads (s.idx + pre.length) = .line b →
    goodCode (pyStrip b) = false →
    rcptLoop t (pre ++ r :: post) s =
      (.error (2, .smtpError ("Error del servidor: " ++ pyStrip b)),
       ⟨s.events ++ (pre ++ [r]).map (fun x => .write ("RCPT TO:" ++ x ++ "\r\n")),
        s.idx + pre.length + 1⟩) := by
  induction pre with
  | nil =>
    intro s _ b hb hbad
    simp only [List.length_nil, Nat.add_zero] at hb
    simp only [List.nil_append, rcptLoop]
    rw [rdStepW_bad t 2 s ("RCPT TO:" ++ r ++ "\r\n") b hb hbad]
    simp
  | cons p ptail ih =>
    intro s h b hb hbad
    obtain ⟨raw, hline, hgood⟩ := h 0 (by simp)
    rw [Nat.add_zero] at hline
    simp only [List.cons_append, rcptLoop]
    rw [rdStepW_good t 2 s ("RCPT TO:" ++ p ++ "\r\n") raw hline hgood]
    dsimp only
    rw [List.append_eq]
    have ih' := ih ⟨s.events ++ [.write ("RCPT TO:" ++ p ++ "\r\n")], s.idx + 1⟩ ?_ b ?_ hbad
    · rw [ih']
      simp only [Prod.mk.injEq, St.mk.injEq, List.map_cons, List.length_cons]
      refine ⟨trivial, by simp, by omega⟩
    · intro i hi
      have h2 := h (i + 1) (by simpa using Nat.succ_lt_succ hi)
      have heq : s.idx + (i + 1) = s.idx + 1 + i := by omega
      rw [heq] at h2
      exact h2
    · have heq : s.idx + (p :: ptail).length = s.idx + 1 + ptail.length := by
        simp
        omega
      rw [heq] at hb
      exact hb

/-- The RCPT TO loop only ever extends the event trace. -/
theorem rcptLoop_events (t : Transport) (rs : List String) :
    ∀ s, ∃ d, (rcptLoop t rs s).2.events = s.events ++ d := by
  induction rs with
  | nil => intro s; exact ⟨[], by simp [rcptLoop]⟩
  | cons r rest ih =>
    intro s
    cases hstep : rdStep t 2 (wr s ("RCPT TO:" ++ r ++ "\r\n")) with
    | mk res s2 =>
      have hs2 : s2 = ⟨s.events ++ [.write ("RCPT TO:" ++ r ++ "\r\n")], s.idx + 1⟩ := by
        have hsnd := rdStep_snd t 2 (wr s ("RCPT TO:" ++ r ++ "\r\n"))
        rw [hstep] at hsnd
        exact hsnd
      cases res with
      | ok u =>
        obtain ⟨d, hd⟩ := ih s2
        refine ⟨.write ("RCPT TO:" ++ r ++ "\r\n") :: d, ?_⟩
        simp only [rcptLoop]
        rw [hstep, hd, hs2]
        simp
      | error ex =>
        refine ⟨[.write ("RCPT TO:" ++ r ++ "\r\n")], ?_⟩
        simp only [rcptLoop]
        rw [hstep, hs2]

/-- Trace monotonicity of the QUIT tail. -/
theorem stageQuit_events (t : Transport) :
    ∀ s, ∃ d, (stageQuit t s).2.events = s.events ++ d := by
  intro s
  apply andThen_events _ _ s.events [.write "QUIT\r\n"]
  · rw [rdStep_snd]
    rfl
  · intro s1
    exact ⟨[], by simp⟩

/-- Trace monotonicity of the content tail. -/
theorem stageContent_events (e : Envelope) (t : Transport) (date : String) :
    ∀ s, ∃ d, (stageContent e t date s).2.events = s.events ++ d := by
  intro s
  apply andThen_events _ _ s.events [.write (email_content e date ++ "\r\n.\r\n")]
  · rw [rdStep_snd]
    rfl
  · exact stageQuit_events t

/-- Trace monotonicity of the DATA tail. -/
theorem stageData_events (e : Envelope) (t : Transport) (date : String) :
    ∀ s, ∃ d, (stageData e t date s).2.events = s.events ++ d := by
  intro s
  apply andThen_events _ _ s.events [.write "DATA\r\n"]
  · rw [rdStep_snd]
    rfl
  · exact stageContent_events e t date

/-- Trace monotonicity of the RCPT TO tail. -/
theorem stageRcpt_events (e : Envelope) (t : Transport) (date : String) :
    ∀ s, ∃ d, (stageRcpt e t date s).2.events = s.events ++ d := by
  intro s
  obtain ⟨d0, hd0⟩ := rcptLoop_events t e.recipient_addresses s
  exact andThen_events _ _ s.events d0 hd0 (stageData_events e t date)

/-- Trace monotonicity of the MAIL FROM tail. -/
theorem stageMail_events (e : Envelope) (t : Transport) (date : String) :
    ∀ s, ∃ d, (stageMail e t date s).2.events = s.events ++ d := by
  intro s
  apply andThen_events _ _ s.events
    [.write ("MAIL FROM:" ++ e.sender_address ++ "\r\n")]
  · rw [rdStep_snd]
    rfl
  · exact stageRcpt_events e t date

/-- The AUTH tail always writes AUTH PLAIN first and only extends the trace
afterwards. -/
theorem stageAuth_events (e : Envelope) (t : Transport) (date : String) :
    ∀ s, ∃ d, (stageAuth e t date s).2.events =
      s.events ++ .write "AUTH PLAIN\r\n" :: d := by
  intro s
  obtain ⟨d0, hd0⟩ := authStep_events e t s
  have h := andThen_events (authStep e t s) (stageMail e t date)
    (s.events ++ [.write "AUTH PLAIN\r\n"]) d0 (by simpa using hd0)
    (stageMail_events e t date)
  obtain ⟨d, hd⟩ := h
  exact ⟨d, by simpa using hd⟩

/-- The command extractor distributes over trace concatenation. -/
theorem writesOf_append (a b : List Event) :
    writesOf (a ++ b) = writesOf a ++ writesOf b := by
  induction a with
  | nil => rfl
  | cons x t ih => cases x <;> simp [writesOf, ih]

/-- send_email on an invalid sender address. -/
theorem send_email_invalid_sender (e : Envelope) (t : Transport) (date : String)
    (h : validate_email_address e.sender_address = false) :
    send_email e t date = ⟨false, 1, []⟩ := by
  simp [send_email, h]

/-- send_email on a valid sender and some invalid recipient address. -/
theorem send_email_invalid_rcpt (e : Envelope) (t : Transport) (date : String)
    (h1 : validate_email_address e.sender_address = true)
    (h2 : e.recipient_addresses.any (fun r => !validate_email_address r) = true) :
    send_email e t date = ⟨false, 2, []⟩ := by
  simp [send_email, h1, h2]

/-- send_email when open_connection raises. -/
theorem send_email_noconn (e : Envelope) (t : Transport) (date : String)
    (h1 : validate_email_address e.sender_address = true)
    (h2 : e.recipient_addresses.any (fun r => !validate_email_address r) = false)
    (h3 : t.connectOk = false) :
    send_email e t date = ⟨false, 3, []⟩ := by
  simp [send_email, h1, h2, h3]

/-- send_email when the session completes. -/
theorem send_email_sessionOk (e : Envelope) (t : Transport) (date : String)
    (h1 : validate_email_address e.sender_address = true)
    (h2 : e.recipient_addresses.any (fun r => !validate_email_address r) = false)
    (h3 : t.connectOk = true) (s : St)
    (hs : sessionCore e t date = (.ok (), s)) :
    send_email e t date = ⟨true, 0, s.events⟩ := by
  simp [send_email, h1, h2, h3, hs]

/-- send_email when the session raises SMTPClientError: the outer handler
keeps a nonzero tag and otherwise falls back to the 501/550 text search. -/
theorem send_email_smtpErr (e : Envelope) (t : Transport) (date : String)
    (h1 : validate_email_address e.sender_address = true)
    (h2 : e.recipient_addresses.any (fun r => !validate_email_address r) = false)
    (h3 : t.connectOk = true) (tag : Nat) (m : String) (s : St)
    (hs : sessionCore e t date = (.error (tag, .smtpError m), s)) :
    send_email e t date =
      ⟨false,
       if tag ≠ 0 then tag
       else if pyContains m "501" then 1
       else if pyContains m "550" then 2
       else 0,
       s.events⟩ := by
  simp [send_email, h1, h2, h3, hs]

/-- send_email when the session raises a non-SMTPClientError exception. -/
theorem send_email_genErr (e : Envelope) (t : Transport) (date : String)
    (h1 : validate_email_address e.sender_address = true)
    (h2 : e.recipient_addresses.any (fun r => !validate_email_address r) = false)
    (h3 : t.connectOk = true) (tag : Nat) (s : St)
    (hs : sessionCore e t date = (.error (tag, .generic), s)) :
    send_email e t date = ⟨false, 3, s.events⟩ := by
  simp [send_email, h1, h2, h3, hs]

/-- Once the session runs, the returned trace is the session's trace. -/
theorem send_email_events_eq (e : Envelope) (t : Transport) (date : String)
    (h1 : validate_email_address e.sender_address = true)
    (h2 : e.recipient_addresses.any (fun r => !validate_email_address r) = false)
    (h3 : t.connectOk = true) :
    (send_email e t date).events = (sessionCore e t date).2.events := by
  cases hs : sessionCore e t date with
  | mk res s =>
    cases res with
    | ok u =>
      cases u
      rw [send_email_sessionOk e t date h1 h2 h3 s hs]
    | error ex =>
      obtain ⟨tag, exc⟩ := ex
      cases exc with
      | smtpError m => rw [send_email_smtpErr e t date h1 h2 h3 tag m s hs]
      | generic => rw [send_email_genErr e t date h1 h2 h3 tag s hs]

/-- Every reply of the toy server starts with an opening brace, so it fails
the client's status test. -/
theorem handle_client_response_bad (c : String) :
    goodCode (pyStrip (handle_client_response c ++ "\r\n")) = false := by
  unfold handle_client_response
  split_ifs <;> decide

/-- Exact run of the QUIT tail on a passing response. -/
theorem stageQuit_ok (t : Transport) (s : St) (hq : GoodLine (t.reads s.idx)) :
    stageQuit t s = (.ok (), ⟨s.events ++ [.write "QUIT\r\n"], s.idx + 1⟩) := by
  obtain ⟨raw, h, hg⟩ := hq
  unfold stageQuit
  rw [rdStepW_good t 0 s "QUIT\r\n" raw h hg, andThen_ok]

/-- Exact run of the content tail on passing responses. -/
theorem stageContent_ok (e : Envelope) (t : Transport) (date : String) (s : St)
    (h0 : GoodLine (t.reads s.idx)) (h1 : GoodLine (t.reads (s.idx + 1))) :
    stageContent e t date s = (.ok (),
      ⟨s.events ++ [.write (email_content e date ++ "\r\n.\r\n"), .write "QUIT\r\n"],
       s.idx + 2⟩) := by
  obtain ⟨raw, h, hg⟩ := h0
  unfold stageContent
  rw [rdStepW_good t 0 s (email_content e date ++ "\r\n.\r\n") raw h hg, andThen_ok,
    stageQuit_ok t _ h1]
  simp [List.append_assoc]

/-- Exact run of the DATA tail on passing responses. -/
theorem stageData_ok (e : Envelope) (t : Transport) (date : String) (s : St)
    (h0 : GoodLine (t.reads s.idx)) (h1 : GoodLine (t.reads (s.idx + 1)))
    (h2 : GoodLine (t.reads (s.idx + 2))) :
    stageData e t date s = (.ok (),
      ⟨s.events ++ [.write "DATA\r\n", .write (email_content e date ++ "\r\n.\r\n"),
        .write "QUIT\r\n"],
       s.idx + 3⟩) := by
  obtain ⟨raw, h, hg⟩ := h0
  unfold stageData
  rw [rdStepW_good t 0 s "DATA\r\n" raw h hg, andThen_ok,
    stageContent_ok e t date _ h1 h2]
  simp [List.append_assoc]

/-- On a 334 challenge the AUTH block always writes AUTH PLAIN and then the
credential line, whatever the response to the credential is. -/
theorem authStep_334_snd (e : Envelope) (t : Transport) (s : St) (a : String)
    (h : t.reads s.idx = .line a)
    (h334 : pyStartsWith (pyStrip a) "334" = true) :
    (authStep e t s).2.events = s.events ++
      [.write "AUTH PLAIN\r\n",
       .write (authB64 e.sender_address e.sender_password ++ "\r\n")] := by
  have hg := starts334_good _ h334
  have hra : read_server_response a = .ok (pyStrip a) := by
    simp [read_server_response, hg]
  cases h2 : t.reads (s.idx + 1) with
  | rfail => simp [authStep, wr, rd, h, h2, hra, h334]
  | line raw2 =>
    cases hrsp2 : read_server_response raw2 with
    | ok r2 => simp [authStep, wr, rd, h, h2, hra, hrsp2, h334]
    | error m2 =>
      by_cases h5 : pyContains m2 "502" = true
      · simp [authStep, wr, rd, h, h2, hra, hrsp2, h334, h5]
      · simp [authStep, wr, rd, h, h2, hra, hrsp2, h334, h5]

/-- C1: send_email validates the sender first and then the recipients in
envelope order, before any network I/O: an invalid sender yields the pair
(not sent, error type 1) with an empty event trace (no connect event), and a
valid sender with some invalid recipient yields (not sent, error type 2),
likewise with no connection opened. -/
theorem C1_validation_before_io (e : Envelope) (t : Transport) (date : String) :
    (validate_email_address e.sender_address = false →
      send_email e t date = ⟨false, 1, []⟩ ∧
        connects (send_email e t date).events = 0) ∧
    (validate_email_address e.sender_address = true →
      (∃ r ∈ e.recipient_addresses, validate_email_address r = false) →
      send_email e t date = ⟨false, 2, []⟩ ∧
        connects (send_email e t date).events = 0) := by
  constructor
  · intro h
    rw [send_email_invalid_sender e t date h]
    exact ⟨rfl, rfl⟩
  · rintro h1 ⟨r, hr, hrf⟩
    have h2 : e.recipient_addresses.any (fun x => !validate_email_address x) = true := by
      rw [List.any_eq_true]
      exact ⟨r, hr, by simp [hrf]⟩
    rw [send_email_invalid_rcpt e t date h1 h2]
    exact ⟨rfl, rfl⟩

/-- Witness for C1 at concrete inputs: a bad sender, and a valid sender with
a bad second recipient. -/
theorem C1_validation_before_io_witness :
    (validate_email_address envBadSender.sender_address = false ∧
      send_email envBadSender trAny "D" = ⟨false, 1, []⟩) ∧
    (validate_email_address envBadRcpt.sender_address = true ∧
      send_email envBadRcpt trAny "D" = ⟨false, 2, []⟩) := by
  constructor
  · exact ⟨by decide,
      ((C1_validation_before_io envBadSender trAny "D").1 (by decide)).1⟩
  · exact ⟨by decide,
      ((C1_validation_before_io envBadRcpt trAny "D").2 (by decide)
        ⟨"bad@", by decide, by decide⟩).1⟩

/-- C2: at the spec's own scenario (a transport replying 550 to RCPT TO) the
run opens exactly one connection and returns (not sent, recipient error),
but its trace contains no close event at all: send_email has no
writer.close() on any path, so the connection is never closed before
returning, contrary to the claim. -/
theorem C2_connection_never_closed :
    send_email envA trRcpt550 "D" =
      ⟨false, 2, [.connect, .write "EHLO localhost\r\n", .write "AUTH PLAIN\r\n",
        .write "MAIL FROM:a@b.com\r\n", .write "RCPT TO:c@d.com\r\n"]⟩ ∧
    connects (send_email envA trRcpt550 "D").events = 1 ∧
    closes (send_email envA trRcpt550 "D").events = 0 := by
  exact ⟨by decide, by decide, by decide⟩

/-- C3 counterexample: with no credential supplied (empty password, the CLI
default), send_email still writes AUTH PLAIN to the transport. -/
theorem C3_counterexample :
    envA.sender_password = "" ∧
    "AUTH PLAIN\r\n" ∈ writesOf (send_email envA trRcpt550 "D").events := by
  exact ⟨rfl, by decide⟩

/-- C3 as amended: send_email attempts AUTH PLAIN unconditionally, whether or
not a credential was supplied; whenever the session reaches the AUTH step its
write sequence starts with EHLO then AUTH PLAIN, and if the server answers a
line whose stripped text starts with 334, the next write is the base64 of the
NUL-separated triple (empty, sender address, secret). -/
theorem C3_auth_unconditional (e : Envelope) (t : Transport) (date : String)
    (h1 : validate_email_address e.sender_address = true)
    (h2 : e.recipient_addresses.any (fun r => !validate_email_address r) = false)
    (h3 : t.connectOk = true)
    (g0 : GoodLine (t.reads 0)) (g1 : GoodLine (t.reads 1)) :
    (∃ rest, writesOf (send_email e t date).events =
      "EHLO localhost\r\n" :: "AUTH PLAIN\r\n" :: rest) ∧
    (∀ a, t.reads 2 = .line a → pyStartsWith (pyStrip a) "334" = true →
      ∃ rest, writesOf (send_email e t date).events =
        "EHLO localhost\r\n" :: "AUTH PLAIN\r\n" ::
          (authB64 e.sender_address e.sender_password ++ "\r\n") :: rest) := by
  obtain ⟨raw0, hr0, hg0⟩ := g0
  obtain ⟨raw1, hr1, hg1⟩ := g1
  have hev : (send_email e t date).events = (sessionCore e t date).2.events :=
    send_email_events_eq e t date h1 h2 h3
  have hcore : sessionCore e t date =
      stageAuth e t date ⟨[.connect, .write "EHLO localhost\r\n"], 2⟩ := by
    unfold sessionCore stageEhlo
    rw [rdStep_good t 0 ⟨[.connect], 0⟩ raw0 hr0 hg0, andThen_ok,
      rdStepW_good t 0 ⟨[.connect], 1⟩ "EHLO localhost\r\n" raw1 hr1 hg1, andThen_ok]
    rfl
  constructor
  · obtain ⟨d, hd⟩ :=
      stageAuth_events e t date ⟨[.connect, .write "EHLO localhost\r\n"], 2⟩
    refine ⟨writesOf d, ?_⟩
    rw [hev, hcore, hd]
    simp [writesOf, writesOf_append]
  · intro a ha h334
    have h334ok :=
      authStep_334_snd e t ⟨[.connect, .write "EHLO localhost\r\n"], 2⟩ a ha h334
    obtain ⟨d, hd⟩ := andThen_events
      (authStep e t ⟨[.connect, .write "EHLO localhost\r\n"], 2⟩)
      (stageMail e t date)
      ([.connect, .write "EHLO localhost\r\n"] ++
        [.write "AUTH PLAIN\r\n",
         .write (authB64 e.sender_address e.sender_password ++ "\r\n")])
      [] (by simpa using h334ok) (stageMail_events e t date)
    refine ⟨writesOf d, ?_⟩
    rw [hev, hcore]
    unfold stageAuth
    rw [hd]
    simp [writesOf, writesOf_append]

/-- Witness for the amended C3 at a concrete 334 session. -/
theorem C3_auth_unconditional_witness :
    ∃ rest, writesOf (send_email envP trAuth334 "D").events =
      "EHLO localhost\r\n" :: "AUTH PLAIN\r\n" ::
        (authB64 envP.sender_address envP.sender_password ++ "\r\n") :: rest := by
  exact (C3_auth_unconditional envP trAuth334 "D" (by decide) (by decide) rfl
    ⟨"220 hi\r\n", rfl, by decide⟩ ⟨"250 ok\r\n", rfl, by decide⟩).2
    "334 go\r\n" rfl (by decide)

/-- C4: read_server_response returns the stripped line exactly when its first
character is 2 or 3, and otherwise raises SMTPClientError carrying the
response text; the returned value is always the stripped line and the raised
message always embeds it. -/
theorem C4_response_classification (s : String) :
    (read_server_response s = Except.ok (pyStrip s) ↔ FirstIn23 (pyStrip s)) ∧
    (read_server_response s = Except.error ("Error del servidor: " ++ pyStrip s) ↔
      ¬ FirstIn23 (pyStrip s)) ∧
    (∀ d, read_server_response s = Except.ok d → d = pyStrip s) ∧
    (∀ m, read_server_response s = Except.error m →
      m = "Error del servidor: " ++ pyStrip s) := by
  cases hg : goodCode (pyStrip s) with
  | true =>
    have hF : FirstIn23 (pyStrip s) := (goodCode_iff _).mp hg
    have hr : read_server_response s = Except.ok (pyStrip s) := by
      simp [read_server_response, hg]
    refine ⟨by simp [hr, hF], by simp [hr, hF], ?_, ?_⟩
    · intro d hd
      rw [hr] at hd
      exact (Except.ok.inj hd).symm
    · intro m hm
      rw [hr] at hm
      exact absurd hm (by simp)
  | false =>
    have hF : ¬ FirstIn23 (pyStrip s) := by
      rw [← goodCode_iff, hg]
      simp
    have hr : read_server_response s =
        Except.error ("Error del servidor: " ++ pyStrip s) := by
      simp [read_server_response, hg]
    refine ⟨by simp [hr, hF], by simp [hr, hF], ?_, ?_⟩
    · intro d hd
      rw [hr] at hd
      exact absurd hd (by simp)
    · intro m hm
      rw [hr] at hm
      exact (Except.error.inj hm).symm

/-- Witness for C4 at one passing and one failing concrete line. -/
theorem C4_response_classification_witness :
    read_server_response "250 ok" = Except.ok (pyStrip "250 ok") ∧
    read_server_response "550 no" =
      Except.error ("Error del servidor: " ++ pyStrip "550 no") := by
  constructor
  · exact (C4_response_classification "250 ok").1.mpr
      ⟨'2', ['5', '0', ' ', 'o', 'k'], by decide, Or.inl rfl⟩
  · refine (C4_response_classification "550 no").2.1.mpr ?_
    rintro ⟨c, tail, heq, hor⟩
    have hdata : (pyStrip "550 no").data = '5' :: ['5', '0', ' ', 'n', 'o'] := by decide
    rw [hdata] at heq
    injection heq with hc htail
    rw [← hc] at hor
    exact absurd hor (by decide)

/-- C5: a failing MAIL FROM response is tagged as a sender failure (type 1)
and a failing RCPT TO response as a recipient failure (type 2); a RCPT TO
failure aborts the loop at once, so the trace holds RCPT TO writes for the
passing front recipients and the failing one only, and no DATA follows. -/
theorem C5_mail_rcpt_classification (e : Envelope) (t : Transport) (date : String)
    (pre : List String) (r : String) (post : List String)
    (hrec : e.recipient_addresses = pre ++ r :: post)
    (h1 : validate_email_address e.sender_address = true)
    (h2 : e.recipient_addresses.any (fun x => !validate_email_address x) = false)
    (h3 : t.connectOk = true)
    (g0 : GoodLine (t.reads 0)) (g1 : GoodLine (t.reads 1))
    (a2 : String) (ha2 : t.reads 2 = .line a2)
    (hg2 : goodCode (pyStrip a2) = true)
    (h334 : pyStartsWith (pyStrip a2) "334" = false) :
    (∀ b, t.reads 3 = .line b → goodCode (pyStrip b) = false →
      send_email e t date = ⟨false, 1,
        [.connect, .write "EHLO localhost\r\n", .write "AUTH PLAIN\r\n",
         .write ("MAIL FROM:" ++ e.sender_address ++ "\r\n")]⟩) ∧
    (GoodLine (t.reads 3) →
     (∀ i, i < pre.length → GoodLine (t.reads (4 + i))) →
     ∀ b, t.reads (4 + pre.length) = .line b → goodCode (pyStrip b) = false →
      send_email e t date = ⟨false, 2,
        [.connect, .write "EHLO localhost\r\n", .write "AUTH PLAIN\r\n",
         .write ("MAIL FROM:" ++ e.sender_address ++ "\r\n")] ++
          (pre ++ [r]).map (fun x => .write ("RCPT TO:" ++ x ++ "\r\n"))⟩) := by
  obtain ⟨raw0, hr0, hg0⟩ := g0
  obtain ⟨raw1, hr1, hg1⟩ := g1
  have hpre : sessionCore e t date = stageMail e t date
      ⟨[.connect, .write "EHLO localhost\r\n", .write "AUTH PLAIN\r\n"], 3⟩ := by
    unfold sessionCore stageEhlo stageAuth
    rw [rdStep_good t 0 ⟨[.connect], 0⟩ raw0 hr0 hg0, andThen_ok,
      rdStepW_good t 0 ⟨[.connect], 1⟩ "EHLO localhost\r\n" raw1 hr1 hg1, andThen_ok,
      authStep_skip e t _ a2 ha2 hg2 h334, andThen_ok]
    rfl
  constructor
  · intro b hb hbad
    have hsess : sessionCore e t date =
        (.error (1, .smtpError ("Error del servidor: " ++ pyStrip b)),
         ⟨[.connect, .write "EHLO localhost\r\n", .write "AUTH PLAIN\r\n",
           .write ("MAIL FROM:" ++ e.sender_address ++ "\r\n")], 4⟩) := by
      rw [hpre]
      unfold stageMail
      rw [rdStepW_bad t 1 _ ("MAIL FROM:" ++ e.sender_address ++ "\r\n") b hb hbad,
        andThen_error]
      rfl
    rw [send_email_smtpErr e t date h1 h2 h3 1 _ _ hsess]
    simp
  · intro g3 hgoodpre b hb hbad
    obtain ⟨raw3, hr3, hg3⟩ := g3
    have hsess : sessionCore e t date =
        (.error (2, .smtpError ("Error del servidor: " ++ pyStrip b)),
         ⟨[.connect, .write "EHLO localhost\r\n", .write "AUTH PLAIN\r\n",
           .write ("MAIL FROM:" ++ e.sender_address ++ "\r\n")] ++
            (pre ++ [r]).map (fun x => .write ("RCPT TO:" ++ x ++ "\r\n")),
          4 + pre.length + 1⟩) := by
      rw [hpre]
      unfold stageMail
      rw [rdStepW_good t 1 _ ("MAIL FROM:" ++ e.sender_address ++ "\r\n") raw3 hr3 hg3,
        andThen_ok]
      unfold stageRcpt
      rw [hrec]
      rw [rcptLoop_fail t pre r post _ hgoodpre b hb hbad, andThen_error]
      rfl
    rw [send_email_smtpErr e t date h1 h2 h3 2 _ _ hsess]
    simp

/-- Witness for C5 at a concrete session: MAIL FROM passes, the first RCPT TO
passes, the second fails with 550, the third is never attempted. -/
theorem C5_mail_rcpt_classification_witness :
    send_email envR trRcptFail2 "D" = ⟨false, 2,
      [.connect, .write "EHLO localhost\r\n", .write "AUTH PLAIN\r\n",
       .write "MAIL FROM:a@b.com\r\n", .write "RCPT TO:c@d.com\r\n",
       .write "RCPT TO:e@f.gh\r\n"]⟩ := by
  have h := (C5_mail_rcpt_classification envR trRcptFail2 "D"
    ["c@d.com"] "e@f.gh" ["x@y.zz"] rfl (by decide) (by decide) rfl
    ⟨"220 hi\r\n", rfl, by decide⟩ ⟨"250 ok\r\n", rfl, by decide⟩
    "250 ok\r\n" rfl (by decide) (by decide)).2
    ⟨"250 ok\r\n", rfl, by decide⟩ ?_ "550 no 2\r\n" rfl (by decide)
  · exact h.trans (by decide)
  · intro i hi
    simp only [List.length_cons, List.length_nil] at hi
    have hi0 : i = 0 := by omega
    subst hi0
    exact ⟨"250 ok\r\n", rfl, by decide⟩

/-- C6: the outer handlers of send_email aggregate failures exactly as the
specification says: a connect failure is the transport class (type 3); a
session SMTPClientError keeps a nonzero step tag, and an untagged one falls
back to searching the text for 501 (sender) then 550 (recipient), else 0;
any non-protocol exception yields type 3. -/
theorem C6_failure_aggregation (e : Envelope) (t : Transport) (date : String)
    (h1 : validate_email_address e.sender_address = true)
    (h2 : e.recipient_addresses.any (fun r => !validate_email_address r) = false) :
    (t.connectOk = false → send_email e t date = ⟨false, 3, []⟩) ∧
    (∀ tag m s, t.connectOk = true →
      sessionCore e t date = (.error (tag, .smtpError m), s) →
      send_email e t date = ⟨false,
        if tag = 0 then
          (if pyContains m "501" then 1 else if pyContains m "550" then 2 else 0)
        else tag,
        s.events⟩) ∧
    (∀ tag s, t.connectOk = true →
      sessionCore e t date = (.error (tag, .generic), s) →
      send_email e t date = ⟨false, 3, s.events⟩) := by
  refine ⟨fun h3 => send_email_noconn e t date h1 h2 h3, ?_, ?_⟩
  · intro tag m s h3 hs
    rw [send_email_smtpErr e t date h1 h2 h3 tag m s hs]
    by_cases htag : tag = 0 <;> simp [htag]
  · intro tag s h3 hs
    exact send_email_genErr e t date h1 h2 h3 tag s hs

/-- Witness for C6: a refused connection, an untagged 550 protocol failure
at EHLO (classified recipient by the text fallback), and a transport-level
read failure (classified generic type 3). -/
theorem C6_failure_aggregation_witness :
    send_email envA trNoConn "D" = ⟨false, 3, []⟩ ∧
    send_email envA trEhlo550 "D" =
      ⟨false, 2, [.connect, .write "EHLO localhost\r\n"]⟩ ∧
    send_email envA trGenFail "D" =
      ⟨false, 3, [.connect, .write "EHLO localhost\r\n"]⟩ := by
  refine ⟨(C6_failure_aggregation envA trNoConn "D" (by decide) (by decide)).1 rfl,
    ?_, ?_⟩
  · have h := (C6_failure_aggregation envA trEhlo550 "D" (by decide) (by decide)).2.1
      0 "Error del servidor: 550 nope"
      ⟨[.connect, .write "EHLO localhost\r\n"], 2⟩ rfl rfl
    exact h.trans (by decide)
  · exact (C6_failure_aggregation envA trGenFail "D" (by decide) (by decide)).2.2
      0 ⟨[.connect, .write "EHLO localhost\r\n"], 2⟩ rfl rfl

/-- C7: against a stub whose AUTH PLAIN response is a failing line containing
502 while every other exchange passes, send_email skips authentication and
completes the whole session, returning (sent, error type 0) with the full
command trace and no credential line. -/
theorem C7_auth_502_not_fatal (e : Envelope) (t : Transport) (date : String)
    (h1 : validate_email_address e.sender_address = true)
    (h2 : e.recipient_addresses.any (fun r => !validate_email_address r) = false)
    (h3 : t.connectOk = true)
    (hgood : ∀ i, i ≠ 2 → GoodLine (t.reads i))
    (a : String) (ha : t.reads 2 = .line a)
    (hbad : goodCode (pyStrip a) = false)
    (h502 : pyContains (pyStrip a) "502" = true) :
    send_email e t date = ⟨true, 0,
      [.connect, .write "EHLO localhost\r\n", .write "AUTH PLAIN\r\n",
       .write ("MAIL FROM:" ++ e.sender_address ++ "\r\n")] ++
        e.recipient_addresses.map (fun x => .write ("RCPT TO:" ++ x ++ "\r\n")) ++
        [.write "DATA\r\n", .write (email_content e date ++ "\r\n.\r\n"),
         .write "QUIT\r\n"]⟩ := by
  have h502' : pyContains ("Error del servidor: " ++ pyStrip a) "502" = true := by
    unfold pyContains at h502 ⊢
    rw [String.data_append]
    exact containsL_append_right _ _ _ h502
  obtain ⟨raw0, hr0, hg0⟩ := hgood 0 (by omega)
  obtain ⟨raw1, hr1, hg1⟩ := hgood 1 (by omega)
  obtain ⟨raw3, hr3, hg3⟩ := hgood 3 (by omega)
  have hsess : sessionCore e t date = (.ok (),
      ⟨[.connect, .write "EHLO localhost\r\n", .write "AUTH PLAIN\r\n",
        .write ("MAIL FROM:" ++ e.sender_address ++ "\r\n")] ++
         e.recipient_addresses.map (fun x => .write ("RCPT TO:" ++ x ++ "\r\n")) ++
         [.write "DATA\r\n", .write (email_content e date ++ "\r\n.\r\n"),
          .write "QUIT\r\n"],
       4 + e.recipient_addresses.length + 3⟩) := by
    unfold sessionCore stageEhlo stageAuth
    rw [rdStep_good t 0 ⟨[.connect], 0⟩ raw0 hr0 hg0, andThen_ok,
      rdStepW_good t 0 ⟨[.connect], 1⟩ "EHLO localhost\r\n" raw1 hr1 hg1, andThen_ok,
      authStep_noauth e t _ a ha hbad h502', andThen_ok]
    unfold stageMail
    rw [rdStepW_good t 1 _ ("MAIL FROM:" ++ e.sender_address ++ "\r\n") raw3 hr3 hg3,
      andThen_ok]
    unfold stageRcpt
    have hrcpt : ∀ i, i < e.recipient_addresses.length → GoodLine (t.reads (4 + i)) :=
      fun i hi => hgood (4 + i) (by omega)
    have hD0 : GoodLine (t.reads (4 + e.recipient_addresses.length)) :=
      hgood _ (by omega)
    have hD1 : GoodLine (t.reads (4 + e.recipient_addresses.length + 1)) :=
      hgood _ (by omega)
    have hD2 : GoodLine (t.reads (4 + e.recipient_addresses.length + 2)) :=
      hgood _ (by omega)
    rw [rcptLoop_ok t e.recipient_addresses _ hrcpt, andThen_ok,
      stageData_ok e t date _ hD0 hD1 hD2]
    simp [List.append_assoc]
  rw [send_email_sessionOk e t date h1 h2 h3 _ hsess]

/-- Witness for C7 at the concrete 502 stub. -/
theorem C7_auth_502_not_fatal_witness :
    send_email envP trAuth502 "D" = ⟨true, 0,
      [.connect, .write "EHLO localhost\r\n", .write "AUTH PLAIN\r\n",
       .write "MAIL FROM:a@b.com\r\n", .write "RCPT TO:c@d.com\r\n",
       .write "DATA\r\n",
       .write ("From: a@b.com\r\nTo: c@d.com\r\nSubject: Hi\r\nDate: D\r\nX-Test: 1\r\n\r\nHello\r\n.\r\n"),
       .write "QUIT\r\n"]⟩ := by
  have h := C7_auth_502_not_fatal envP trAuth502 "D" (by decide) (by decide) rfl
    ?_ "502 Command not implemented\r\n" rfl (by decide) (by decide)
  · exact h.trans (by decide)
  · intro i hi
    refine ⟨"250 ok\r\n", ?_, by decide⟩
    simp [trAuth502, hi]

/-- C8 counterexample: smtp_utils validate_email_address has no isinstance
guard, so re.match raises TypeError on non-string input instead of returning
false; moreover, the Python dollar anchor accepts one trailing newline, so a
string outside the claimed character classes is accepted. -/
theorem C8_counterexample :
    validate_email_address_dyn PyVal.other = Except.error () ∧
    validate_email_address "a@bc.de\n" = true :=
  ⟨rfl, by decide⟩

/-- C8 as amended: on strings, both validators return true exactly for the
local-part at domain shape, where the end anchor also matches just before a
single final newline; the empty string is rejected; on non-string input the
smtp_client variant returns false without raising, while the smtp_utils
variant raises TypeError. -/
theorem C8_validator_characterization :
    (∀ s : String, validate_email_address s = true ↔ RegexAccepts s) ∧
    validate_email_address "" = false ∧
    (∀ v : PyVal, validate_email_address_dyn v = Except.error () ↔ v = .other) ∧
    (∀ v : PyVal, validate_email_address_client v = true ↔
      ∃ s, v = .pstr s ∧ RegexAccepts s) := by
  refine ⟨validate_email_address_iff, by decide, ?_, ?_⟩
  · intro v
    cases v with
    | pstr s => simp [validate_email_address_dyn]
    | other => simp [validate_email_address_dyn]
  · intro v
    cases v with
    | pstr s => simp [validate_email_address_client, validate_email_address_iff]
    | other => simp [validate_email_address_client]

/-- Witness for the amended C8 at a concrete accepted address. -/
theorem C8_validator_characterization_witness :
    validate_email_address "user@example.com" = true := by
  refine (C8_validator_characterization.1 "user@example.com").mpr (Or.inl ?_)
  exact ⟨"user".data, "example".data, "com".data,
    by decide, by decide, by decide, by decide, by decide, by decide, by decide⟩

/-- C9 counterexample: for outcome (not sent, type 0) main prints the
Spanish unknown-server-error text, not the literal Unknown error, and for
type 3 the Spanish protocol-error text, not SMTP protocol error. -/
theorem C9_counterexample :
    main_output false 0 ≠ (550, "Unknown error") ∧
    main_output false 3 ≠ (503, "SMTP protocol error") ∧
    main_output false 0 = (550, "Error desconocido del servidor") ∧
    main_output false 3 = (503, "Error de protocolo SMTP") := by
  exact ⟨by decide, by decide, rfl, rfl⟩

/-- C9 as amended: the outcome-to-response table of main, with the texts the
code actually holds: success to (250, Message accepted for delivery), type 1
to (501, Invalid sender address), type 2 to (550, Invalid recipient
address), type 3 to (503, Error de protocolo SMTP), type 0 to (550, Error
desconocido del servidor), and any unmapped type to (550, Unknown error). -/
theorem C9_output_table :
    (∀ k, main_output true k = (250, "Message accepted for delivery")) ∧
    main_output false 1 = (501, "Invalid sender address") ∧
    main_output false 2 = (550, "Invalid recipient address") ∧
    main_output false 3 = (503, "Error de protocolo SMTP") ∧
    main_output false 0 = (550, "Error desconocido del servidor") ∧
    (∀ k, 4 ≤ k → main_output false k = (550, "Unknown error")) := by
  refine ⟨fun k => rfl, rfl, rfl, rfl, rfl, ?_⟩
  intro k hk
  have h0 : ¬ k = 0 := by omega
  have h1 : ¬ k = 1 := by omega
  have h2 : ¬ k = 2 := by omega
  have h3 : ¬ k = 3 := by omega
  simp [main_output, status_codes, error_messages, h0, h1, h2, h3]

/-- Witness for the amended C9 at an unmapped error type. -/
theorem C9_output_table_witness :
    4 ≤ 7 ∧ main_output false 7 = (550, "Unknown error") :=
  ⟨by decide, C9_output_table.2.2.2.2.2 7 (by decide)⟩

/-- C10: whenever every post-greeting read hands the client a reply of the
toy server (a JSON object line, whose first character is an opening brace),
the session fails at the first such response and send_email never returns
sent, whatever the envelope and the greeting are. -/
theorem C10_toy_server_never_succeeds (e : Envelope) (t : Transport) (date : String)
    (hsrv : ∀ i, 1 ≤ i → ∃ c, t.reads i = .line (handle_client_response c ++ "\r\n")) :
    (send_email e t date).email_sent = false := by
  by_cases h1 : validate_email_address e.sender_address = true
  case neg =>
    have h1' : validate_email_address e.sender_address = false := by
      simpa using h1
    rw [send_email_invalid_sender e t date h1']
  case pos =>
  by_cases h2 : e.recipient_addresses.any (fun r => !validate_email_address r) = true
  case pos =>
    rw [send_email_invalid_rcpt e t date h1 h2]
  case neg =>
  have h2' : e.recipient_addresses.any (fun r => !validate_email_address r) = false := by
    simpa using h2
  by_cases h3 : t.connectOk = true
  case neg =>
    have h3' : t.connectOk = false := by simpa using h3
    rw [send_email_noconn e t date h1 h2' h3']
  case pos =>
  obtain ⟨c1, hc1⟩ := hsrv 1 (by omega)
  have hbad := handle_client_response_bad c1
  cases hr0 : t.reads 0 with
  | rfail =>
    have hsess : sessionCore e t date = (.error (0, .generic), ⟨[.connect], 1⟩) := by
      unfold sessionCore
      rw [rdStep_rfail t 0 ⟨[.connect], 0⟩ hr0, andThen_error]
    rw [send_email_genErr e t date h1 h2' h3 0 _ hsess]
  | line raw =>
    cases hg0 : goodCode (pyStrip raw) with
    | false =>
      have hsess : sessionCore e t date =
          (.error (0, .smtpError ("Error del servidor: " ++ pyStrip raw)),
           ⟨[.connect], 1⟩) := by
        unfold sessionCore
        rw [rdStep_bad t 0 ⟨[.connect], 0⟩ raw hr0 hg0, andThen_error]
      rw [send_email_smtpErr e t date h1 h2' h3 0 _ _ hsess]
    | true =>
      have hsess : sessionCore e t date =
          (.error (0, .smtpError ("Error del servidor: " ++
              pyStrip (handle_client_response c1 ++ "\r\n"))),
           ⟨[.connect, .write "EHLO localhost\r\n"], 2⟩) := by
        unfold sessionCore stageEhlo
        rw [rdStep_good t 0 ⟨[.connect], 0⟩ raw hr0 hg0, andThen_ok,
          rdStepW_bad t 0 ⟨[.connect], 1⟩ "EHLO localhost\r\n" _ hc1 hbad,
          andThen_error]
        rfl
      rw [send_email_smtpErr e t date h1 h2' h3 0 _ _ hsess]

/-- Witness for C10: the bundled client against the bundled server's exact
replies never reports success. -/
theorem C10_toy_server_never_succeeds_witness :
    (send_email envA trToy "D").email_sent = false := by
  refine C10_toy_server_never_succeeds envA trToy "D" ?_
  intro i hi
  refine ⟨"EHLO localhost\r\n", ?_⟩
  have hne : ¬ i = 0 := by omega
  simp [trToy, hne]

end Smtp
